import Mathlib

/-!
# Verification of the godmode-agent signal engine

Shallow embedding of `src/strategy.py` (the multi-timeframe signal engine)
together with a spec-modelled position lifecycle monitor, and proofs of the
frozen claims about them.

Modelling conventions:
* Python floats are modelled as rationals (`ℚ`); `round(x, n)` is modelled as
  decimal rounding half-to-even (`pyRound`), the decimal idealisation of
  Python's builtin `round`.
* Fallible Python code (IndexError on out-of-range list indexing, KeyError on
  dict subscript misses, ZeroDivisionError) is modelled with `Except PyError`.
* Python's negative indexing `xs[-1]`, `xs[-2]`, ... is modelled by pattern
  matching on `xs.reverse`.
-/

/-- Runtime errors that the embedded Python code can raise. -/
inductive PyError where
  | indexError
  | keyError
  | zeroDivision
  deriving DecidableEq, Repr

/-- Python's `str.lower()`, modelled on the character data of the string
(the native `String.toLower` does not reduce definitionally). -/
def pyLower (s : String) : String := ⟨s.data.map Char.toLower⟩

/-- The character data of Python's `str.upper()`. -/
def pyUpperL (s : String) : List Char := s.data.map Char.toUpper

/-- One OHLC bar, as consumed by `strategy.py` (dict with keys
`open`/`high`/`low`/`close`). `open` is a Lean keyword, hence `open_`. -/
structure Candle where
  open_ : ℚ
  high : ℚ
  low : ℚ
  close : ℚ
  deriving DecidableEq, Repr

/-- A point of interest as built by `detect_poi_and_liquidity`: the dict
`{"top": ..., "bottom": ..., "type": ...}`. `type` is a Lean keyword, hence
`ptype`. -/
structure POI where
  top : ℚ
  bottom : ℚ
  ptype : String
  deriving DecidableEq, Repr

/-- Round-half-to-even of a rational to an integer: the decimal idealisation of
Python's banker's rounding. -/
def rhe (q : ℚ) : ℤ :=
  if q - ⌊q⌋ < 1/2 then ⌊q⌋
  else if 1/2 < q - ⌊q⌋ then ⌊q⌋ + 1
  else if ⌊q⌋ % 2 = 0 then ⌊q⌋ else ⌊q⌋ + 1

/-- Model of Python's `round(q, n)`: round half-to-even at `n` decimal
places. -/
def pyRound (q : ℚ) (n : ℕ) : ℚ :=
  (rhe (q * 10 ^ n) : ℚ) / 10 ^ n

/-- Does the character list contain `XAU` as a contiguous block?  (Models
Python's `"XAU" in s`.) -/
def hasXAU : List Char → Bool
  | 'X' :: 'A' :: 'U' :: _ => true
  | _ :: rest => hasXAU rest
  | [] => false

/-- `pip_value_usd` as computed inside `TradeSetup.calculate_lot_size`:
10 USD, or 1 USD when the symbol contains "XAU" (case-insensitively). -/
def pip_value_usd (symbol : String) : ℚ :=
  if hasXAU (pyUpperL symbol) then 1 else 10

/-- The `account_risk_percent` dict of `calculate_lot_size`; subscripting a
missing key raises `KeyError`, hence `Option`. -/
def account_risk_percent (t : String) : Option ℚ :=
  if t = "personal_10" then some 5
  else if t = "phase1" then some 2
  else if t = "phase2" then some (5/4)
  else if t = "funded" then some (1/2)
  else none

/-- `TradeSetup.get_account_balance`: a dict lookup with default 5000. -/
def get_account_balance (t : String) : ℚ :=
  if t = "personal_10" then 10
  else if t = "phase1" then 5000
  else if t = "phase2" then 5000
  else if t = "funded" then 50000
  else 5000

/-- The position-size expression of `calculate_lot_size` before its final
3-decimal rounding: `(riskPct/100 * balance) / (slPips * pipValue)`. -/
def lotRaw (balance riskPct slPips pipValue : ℚ) : ℚ :=
  (riskPct / 100 * balance) / (slPips * pipValue)

/-- `TradeSetup.calculate_lot_size`.  Subscripting `account_risk_percent`
can raise `KeyError`; the division raises `ZeroDivisionError` when
`sl_pips * pip_value = 0`.  Otherwise the quotient is rounded to 3 decimal
places. -/
def calculate_lot_size (accountType symbol : String) (slPips : ℚ) :
    Except PyError ℚ :=
  match account_risk_percent accountType with
  | none => .error .keyError
  | some pct =>
    let pv := pip_value_usd symbol
    if slPips * pv = 0 then .error .zeroDivision
    else .ok (pyRound (lotRaw (get_account_balance accountType) pct slPips pv) 3)

/-- `TradeSetup.calculate_tps`: one take-profit level per risk-reward
multiplier, `entry ± sl_pips * rr` rounded to 5 decimals, the sign depending
on whether the lowercased direction is "buy". -/
def calculate_tps (direction : String) (entry slPips : ℚ) (rrs : List ℚ) :
    List ℚ :=
  rrs.map (fun rr =>
    pyRound (if pyLower direction = "buy" then entry + slPips * rr
             else entry - slPips * rr) 5)

/-- The `TradeSetup` object of `strategy.py` after `__init__` has run. -/
structure TradeSetup where
  symbol : String
  direction : String
  entry : ℚ
  sl : ℚ
  rr_ratios : List ℚ
  confidence : ℕ
  account_type : String
  sl_pips : ℚ
  tp_levels : List ℚ
  lot_size : ℚ
  deriving DecidableEq, Repr

/-- `TradeSetup.__init__`: computes `tp_levels` and `lot_size` at
construction time; constructing the object can therefore raise
(`KeyError`/`ZeroDivisionError` from `calculate_lot_size`). -/
def mkTradeSetup (symbol direction : String) (entry sl : ℚ) (rrs : List ℚ)
    (confidence : ℕ) (accountType : String) (slPips : ℚ) :
    Except PyError TradeSetup :=
  match calculate_lot_size accountType symbol slPips with
  | .error e => .error e
  | .ok lot =>
    .ok { symbol := symbol, direction := direction, entry := entry, sl := sl,
          rr_ratios := rrs, confidence := confidence,
          account_type := accountType, sl_pips := slPips,
          tp_levels := calculate_tps direction entry slPips rrs,
          lot_size := lot }

/-- `identify_directional_bias`: compares the last two highs and lows.
Raises `IndexError` on series with fewer than 2 bars (there is no length
guard in the source); returns `"buy"`, `"sell"`, or `None`. -/
def identify_directional_bias (htf : List Candle) :
    Except PyError (Option String) :=
  match htf.reverse with
  | c1 :: c2 :: _ =>
    if c1.high > c2.high ∧ c1.low > c2.low then .ok (some "buy")
    else if c1.high < c2.high ∧ c1.low < c2.low then .ok (some "sell")
    else .ok none
  | _ => .error .indexError

/-- `detect_market_structure_shift`: `None` for series shorter than 3 bars,
otherwise compares the last bar's high/low against the previous bar's. -/
def detect_market_structure_shift (htf : List Candle) : Option String :=
  match htf.reverse with
  | curr :: prev :: _ :: _ =>
    if curr.high > prev.high then some "bullish_bos"
    else if curr.low < prev.low then some "bearish_bos"
    else none
  | _ => none

/-- `detect_poi_and_liquidity`: returns `(ob_list, fvg_list, liquidity)`.
For series of at least 3 bars the single OB candidate is built from the
second-to-last bar; an FVG is added when `prev2.close < prev.open`. -/
def detect_poi_and_liquidity (htf : List Candle) :
    List POI × List POI × List ℚ :=
  match htf.reverse with
  | _last :: prev :: prev2 :: _ =>
    ([⟨prev.high, prev.low, "OB"⟩],
     if prev2.close < prev.open_ then [⟨prev.high, prev.low, "FVG"⟩] else [],
     [prev.high, prev.low])
  | _ => ([], [], [])

/-- `confirm_entry`: looks only at the most recent lower-timeframe bar
(`IndexError` on an empty series).  For "buy" it is true iff the bar's low
reaches the POI's bottom; for "sell" iff the bar's high reaches the POI's
top.  No condition on the bar's close is checked. -/
def confirm_entry (ltf : List Candle) (poi : POI) (db : String) :
    Except PyError Bool :=
  match ltf.reverse with
  | last :: _ =>
    if db = "buy" ∧ last.low ≤ poi.bottom then .ok true
    else if db = "sell" ∧ last.high ≥ poi.top then .ok true
    else .ok false
  | [] => .error .indexError

/-- `confidence_score` with the Python truthiness of its three arguments
already evaluated: weights 40 (structure shift), 30 (POI), 30
(confirmation), capped at 100. -/
def confidence_score (structure_shift poi confirmation : Bool) : ℕ :=
  min ((if structure_shift then 40 else 0) + (if poi then 30 else 0) +
       (if confirmation then 30 else 0)) 100

/-- `generate_trade`: the full evaluation pipeline of `strategy.py`.
`Option.none` models Python's `return None` ("no setup"), the `Except`
layer models uncaught runtime errors. -/
def generate_trade (symbol : String) (htf ltf : List Candle)
    (account_type : String) (sl_pips : ℚ) :
    Except PyError (Option TradeSetup) :=
  match identify_directional_bias htf with
  | .error e => .error e
  | .ok none => .ok none
  | .ok (some db) =>
    let mss := detect_market_structure_shift htf
    match ((detect_poi_and_liquidity htf).1).getLast? with
    | none => .ok none
    | some poi =>
      match confirm_entry ltf poi db with
      | .error e => .error e
      | .ok confirm =>
        let confidence := confidence_score mss.isSome true confirm
        if confidence < 85 ∧ account_type ≠ "personal_10" then .ok none
        else if confidence < 95 ∧ account_type = "personal_10" then .ok none
        else
          match mkTradeSetup symbol db ((poi.top + poi.bottom) / 2)
              (if db = "buy" then poi.bottom else poi.top) [3, 6, 10]
              confidence account_type sl_pips with
          | .error e => .error e
          | .ok t => .ok (some t)

/-! ## The position lifecycle monitor (spec-modelled)

`src/` contains no position lifecycle code; the state machine below is
modelled from the spec (§4.9). -/

/-- Modelled from the spec: the two-valued `Direction` enumeration used by the
lifecycle monitor (§4.9, §9), absent from `src/`. -/
inductive Direction where
  | long
  | short
  deriving DecidableEq, Repr

/-- Modelled from the spec: the terminal closure reasons of the §4.9 state
machine, absent from `src/`. -/
inductive CloseReason where
  | stopHit
  | target3Hit
  | reversed
  deriving DecidableEq, Repr

/-- Modelled from the spec: the lifecycle states of the §4.9 state machine,
absent from `src/`. -/
inductive LifecycleState where
  | new
  | breakevenArmed
  | partialTaken
  | trailing
  | target2Hit
  | closed : CloseReason → LifecycleState
  deriving DecidableEq, Repr

/-- Modelled from the spec: the immutable `TradeSignal` data the §4.9 monitor
compares prices against (entry, stop, three-target ladder), absent from
`src/`. -/
structure TradeSignal where
  direction : Direction
  entry : ℚ
  stop : ℚ
  target1 : ℚ
  target2 : ℚ
  target3 : ℚ
  deriving DecidableEq, Repr

/-- Is a lifecycle state terminal? -/
def isClosedState : LifecycleState → Bool
  | .closed _ => true
  | _ => false

/-- "price ≥ threshold" for Long, mirrored for Short (§4.9: the monitor
mirrors every comparison operator). -/
def reachedLevel (d : Direction) (price thr : ℚ) : Bool :=
  match d with
  | .long => decide (thr ≤ price)
  | .short => decide (price ≤ thr)

/-- "price ≤ stop" for Long, mirrored for Short. -/
def stopCrossed (d : Direction) (price stop : ℚ) : Bool :=
  match d with
  | .long => decide (price ≤ stop)
  | .short => decide (stop ≤ price)

/-- "price reverses back through entry against the trade direction". -/
def reversedThroughEntry (d : Direction) (price entry : ℚ) : Bool :=
  match d with
  | .long => decide (price < entry)
  | .short => decide (entry < price)

/-- Modelled from the spec: one observation step of the §4.9
PositionLifecycleMonitor (absent from `src/`).  A closed position is a
no-op; the stop check takes priority over all target thresholds crossed in
the same observation; the remaining transitions follow the §4.9 table. -/
def lifecycle_step (sig : TradeSignal) (st : LifecycleState) (price : ℚ) :
    LifecycleState :=
  match st with
  | .closed r => .closed r
  | st =>
    if stopCrossed sig.direction price sig.stop then .closed .stopHit
    else if reachedLevel sig.direction price sig.target3 then
      .closed .target3Hit
    else
      match st with
      | .new =>
        if reachedLevel sig.direction price sig.target1 then .partialTaken
        else if reachedLevel sig.direction price
            (sig.entry + (sig.target1 - sig.entry) / 2) then .breakevenArmed
        else .new
      | .breakevenArmed =>
        if reachedLevel sig.direction price sig.target1 then .partialTaken
        else .breakevenArmed
      | .partialTaken =>
        if reachedLevel sig.direction price sig.target2 then .target2Hit
        else if reachedLevel sig.direction price
            (sig.target1 + (sig.target2 - sig.target1) / 2) then .trailing
        else if reversedThroughEntry sig.direction price sig.entry then
          .closed .reversed
        else .partialTaken
      | .trailing =>
        if reachedLevel sig.direction price sig.target2 then .target2Hit
        else if reversedThroughEntry sig.direction price sig.entry then
          .closed .reversed
        else .trailing
      | .target2Hit => .target2Hit
      | .closed r => .closed r

/-- The §4.5 confirmation rule as the spec words it (this definition follows
the spec, for comparison with `confirm_entry` from the source): the most
recent lower-timeframe bar must intrude into the POI's price band in the
bias direction (its wick touches/crosses the POI boundary) AND close back
outside the POI in the direction of the trade. -/
def confirmationSpecRule (c : Candle) (p : POI) (db : String) : Bool :=
  if db = "buy" then decide (c.low ≤ p.top) && decide (p.top < c.close)
  else if db = "sell" then decide (p.bottom ≤ c.high) && decide (c.close < p.bottom)
  else false

/-- The POI band [99, 100] used against the confirmation engine. -/
def poiC6 : POI := ⟨100, 99, "OB"⟩

/-- A lower-timeframe bar whose wick intrudes through the POI band
(low 98.5) but which closes inside the band (close 99.5), i.e. without the
rejecting close the claim requires. -/
def barC6 : Candle := ⟨99.8, 100, 98.5, 99.5⟩

/-- Largest element of a list of rationals, `none` on the empty list. -/
def maxQ : List ℚ → Option ℚ
  | [] => none
  | x :: xs =>
    some (match maxQ xs with
          | none => x
          | some m => max x m)

/-- Smallest element of a list of rationals, `none` on the empty list. -/
def minQ : List ℚ → Option ℚ
  | [] => none
  | x :: xs =>
    some (match minQ xs with
          | none => x
          | some m => min x m)

/-- The §4.2 structure-shift rule as the claim states it (this definition
follows the spec, for comparison with `detect_market_structure_shift` from
the source): with Bullish bias a shift confirms exactly when the latest
close exceeds the highest high of the trailing window of `n` prior bars
(excluding the current bar); with Bearish bias when the latest close is
below the trailing lowest low; Neutral bias never confirms. -/
def shiftSpecRule (bias : Option String) (htf : List Candle) (n : ℕ) : Bool :=
  match bias with
  | none => false
  | some b =>
    match htf.reverse with
    | [] => false
    | curr :: prior =>
      if b = "buy" then
        match maxQ ((prior.take n).map Candle.high) with
        | none => false
        | some m => decide (m < curr.close)
      else if b = "sell" then
        match minQ ((prior.take n).map Candle.low) with
        | none => false
        | some m => decide (curr.close < m)
      else false

/-- Three bars whose last bar makes a higher high (101 > 100) while its
close (99) stays below every prior high. -/
def htfC7 : List Candle := [⟨90, 95, 85, 92⟩, ⟨95, 100, 90, 96⟩, ⟨97, 101, 91, 99⟩]

/-! ## Scenario A: a complete qualifying evaluation -/

/-- Higher-timeframe series realising Scenario A: rising highs and lows
(bias "buy"), a higher high on the last bar (structure shift), and an
OrderBlock POI band [99, 100] from the second-to-last bar. -/
def htfA : List Candle := [⟨92, 98, 88, 90⟩, ⟨99.2, 100, 99, 99.8⟩,
  ⟨99.9, 101, 99.5, 100.4⟩]

/-- Lower-timeframe series realising Scenario A's confirmation: the last
bar's low (98.9) reaches the POI bottom (99); its close is 100.2. -/
def ltfA : List Candle := [⟨100, 100.5, 98.9, 100.2⟩]

/-- The `TradeSetup` that `generate_trade` produces on Scenario A with
account "phase1" and `sl_pips = 20`. -/
def setupA : TradeSetup :=
  ⟨"EUR/USD", "buy", 199/2, 99, [3, 6, 10], 100, "phase1", 20,
   [319/2, 439/2, 599/2], 1/2⟩

/-- The `TradeSetup` produced on Scenario A inputs when the caller passes
the invalid stop distance `sl_pips = -1`: its target ladder lies below the
entry while the direction is "buy". -/
def setup2c : TradeSetup :=
  ⟨"EUR/USD", "buy", 199/2, 99, [3, 6, 10], 100, "phase1", -1,
   [193/2, 187/2, 179/2], -10⟩

/-- Does a trade satisfy the claimed stop/entry/target ordering invariant
(stop < entry < targets strictly increasing for "buy"; mirrored
otherwise)? -/
def chainUpb : ℚ → List ℚ → Bool
  | _, [] => true
  | e, x :: r => decide (e < x) && chainUpb x r

/-- Strictly decreasing chain below `e`, the mirror of `chainUpb`. -/
def chainDownb : ℚ → List ℚ → Bool
  | _, [] => true
  | e, x :: r => decide (x < e) && chainDownb x r

/-- The §3 TradeSignal ordering invariant, as a Boolean check on the
embedded `TradeSetup`. -/
def orderingOKb (t : TradeSetup) : Bool :=
  if t.direction = "buy" then
    decide (t.sl < t.entry) && chainUpb t.entry t.tp_levels
  else
    decide (t.entry < t.sl) && chainDownb t.entry t.tp_levels

/-! ## Rounding lemmas -/

lemma rhe_ge (q : ℚ) : q - 1/2 ≤ (rhe q : ℚ) := by
  have h1 : (⌊q⌋ : ℚ) ≤ q := Int.floor_le q
  have h2 : q - 1 < (⌊q⌋ : ℚ) := Int.sub_one_lt_floor q
  unfold rhe
  split
  · linarith
  · split
    · push_cast
      linarith
    · split
      · linarith
      · push_cast
        linarith

lemma rhe_le (q : ℚ) : (rhe q : ℚ) ≤ q + 1/2 := by
  have h1 : (⌊q⌋ : ℚ) ≤ q := Int.floor_le q
  have h2 : q - 1 < (⌊q⌋ : ℚ) := Int.sub_one_lt_floor q
  unfold rhe
  split
  · linarith
  · split
    · push_cast
      linarith
    · split
      · linarith
      · push_cast
        linarith

lemma rhe_intCast (z : ℤ) : rhe (z : ℚ) = z := by
  unfold rhe
  rw [Int.floor_intCast]
  rw [if_pos]
  norm_num

/-- Evaluation rule for `pyRound` when the scaled value is an integer. -/
lemma pyRound_eval_int (z : ℤ) {q : ℚ} {n : ℕ} (h : q * 10 ^ n = (z : ℚ)) :
    pyRound q n = z / 10 ^ n := by
  rw [pyRound, h, rhe_intCast]

lemma pyRound5_ge (q : ℚ) : q - 1/200000 ≤ pyRound q 5 := by
  have h := rhe_ge (q * 10 ^ 5)
  rw [pyRound, le_div_iff₀ (by norm_num : (0:ℚ) < 10 ^ 5)]
  have e : (q - 1/200000) * 10 ^ 5 = q * 10 ^ 5 - 1/2 := by ring
  rw [e]
  exact h

lemma pyRound5_le (q : ℚ) : pyRound q 5 ≤ q + 1/200000 := by
  have h := rhe_le (q * 10 ^ 5)
  rw [pyRound, div_le_iff₀ (by norm_num : (0:ℚ) < 10 ^ 5)]
  have e : (q + 1/200000) * 10 ^ 5 = q * 10 ^ 5 + 1/2 := by ring
  rw [e]
  exact h

/-- `pyRound · 5` is strictly monotone across gaps wider than one rounding
step. -/
lemma pyRound5_strict {x y : ℚ} (h : x + 1/100000 < y) :
    pyRound x 5 < pyRound y 5 := by
  have h1 := pyRound5_le x
  have h2 := pyRound5_ge y
  linarith

/-- Evaluation rule for `rhe` when the fractional part is below 1/2. -/
lemma rhe_eval_lo (z : ℤ) {q : ℚ} (hf : ⌊q⌋ = z) (h : q - z < 1/2) :
    rhe q = z := by
  unfold rhe
  rw [hf, if_pos h]

/-- Evaluation rule for `rhe` when the fractional part is above 1/2. -/
lemma rhe_eval_hi (z : ℤ) {q : ℚ} (hf : ⌊q⌋ = z) (h : 1/2 < q - z) :
    rhe q = z + 1 := by
  unfold rhe
  rw [hf, if_neg (by linarith), if_pos h]

lemma pyRound_eval_lo (z : ℤ) {q : ℚ} {n : ℕ} (hf : ⌊q * 10 ^ n⌋ = z)
    (h : q * 10 ^ n - z < 1/2) : pyRound q n = z / 10 ^ n := by
  rw [pyRound, rhe_eval_lo z hf h]

lemma pyRound_eval_hi (z : ℤ) {q : ℚ} {n : ℕ} (hf : ⌊q * 10 ^ n⌋ = z)
    (h : 1/2 < q * 10 ^ n - z) : pyRound q n = (z + 1) / 10 ^ n := by
  rw [pyRound, rhe_eval_hi z hf h]
  push_cast
  ring

lemma pip_value_eurusd : pip_value_usd "EUR/USD" = 10 := by
  have hxau : hasXAU (pyUpperL "EUR/USD") = false := by decide
  simp [pip_value_usd, hxau]

lemma pyLower_buy : pyLower "buy" = "buy" := by decide

lemma pyLower_sell : pyLower "sell" = "sell" := by decide

lemma lot_phase1_eurusd_20 : calculate_lot_size "phase1" "EUR/USD" 20 = .ok (1/2) := by
  simp [calculate_lot_size, account_risk_percent, get_account_balance,
    pip_value_eurusd, lotRaw]
  rw [pyRound_eval_int 500 (by norm_num)]
  norm_num

/-! ## Claims -/

/-- C3: the claim says short series yield the Neutral/absent bias with no
error.  In the code, `identify_directional_bias` raises `IndexError` on the
empty and the one-bar series, and a two-bar rising series (still shorter
than the spec's minimum look-back of 5 bars) yields "buy" rather than
Neutral. -/
theorem bias_short_series_raises_indexerror :
    identify_directional_bias ([] : List Candle) = .error .indexError ∧
    identify_directional_bias [⟨1, 2, 1, 2⟩] = .error .indexError ∧
    identify_directional_bias [⟨1, 2, 1, 2⟩, ⟨1, 3, 2, 3⟩] = .ok (some "buy") := by
  refine ⟨rfl, rfl, ?_⟩
  norm_num [identify_directional_bias]

/-- C4: the claim says non-positive `sl_pips` is rejected by validation and
no division by zero happens.  In the code, `calculate_lot_size` performs the
division unconditionally: `sl_pips = 0` raises `ZeroDivisionError`, and a
negative `sl_pips` silently produces a negative lot size. -/
theorem lot_size_division_by_zero :
    calculate_lot_size "phase1" "EUR/USD" 0 = .error .zeroDivision ∧
    calculate_lot_size "phase1" "EUR/USD" (-5) = .ok (-2) := by
  constructor
  · simp [calculate_lot_size, account_risk_percent, pip_value_eurusd]
  · simp [calculate_lot_size, account_risk_percent, get_account_balance,
      pip_value_eurusd, lotRaw]
    rw [pyRound_eval_int (-2000) (by norm_num)]
    norm_num

/-- C9: for every open position, an observation that crosses the stop
threshold closes the position via StopHit even when it also crosses any
target threshold in the same observation (the target path is never
taken). -/
theorem stop_hit_priority (sig : TradeSignal) (st : LifecycleState)
    (price : ℚ) (hopen : isClosedState st = false)
    (hstop : stopCrossed sig.direction price sig.stop = true)
    (_htarget : reachedLevel sig.direction price sig.target1 = true ∨
        reachedLevel sig.direction price sig.target2 = true ∨
        reachedLevel sig.direction price sig.target3 = true) :
    lifecycle_step sig st price = .closed .stopHit := by
  cases st
  case closed r => simp [isClosedState] at hopen
  all_goals simp [lifecycle_step, hstop]

/-- Witness for C9: a Long position (entry 50, stop 100, targets 80/85/90)
observed at price 90 crosses both the stop and the first target; the step
closes via StopHit. -/
theorem stop_hit_priority_witness :
    lifecycle_step ⟨.long, 50, 100, 80, 85, 90⟩ .new 90 = .closed .stopHit := by
  refine stop_hit_priority _ _ _ (by decide) ?_ (Or.inl ?_)
  · norm_num [stopCrossed]
  · norm_num [reachedLevel]

/-- C6 counterexample: `confirm_entry` returns true for a bar that intrudes
into the POI band but does NOT close back outside it, so the claimed
if-and-only-if characterisation fails: the code checks no close-back
condition at all. -/
theorem confirm_entry_ignores_close_rejection :
    confirm_entry [barC6] poiC6 "buy" = .ok true ∧
    confirmationSpecRule barC6 poiC6 "buy" = false := by
  constructor
  · norm_num [confirm_entry, barC6, poiC6]
  · norm_num [confirmationSpecRule, barC6, poiC6]

/-- C6 as amended: for a non-empty lower-timeframe series, `confirm_entry`
returns true exactly when the last bar's wick reaches the POI's far
boundary in the bias direction (low ≤ bottom for "buy", high ≥ top for
"sell"); no close-back-outside condition is checked. -/
theorem confirm_entry_wick_only (l : List Candle) (c : Candle) (p : POI)
    (db : String) (h : l.reverse.head? = some c) :
    confirm_entry l p db =
      .ok ((decide (db = "buy") && decide (c.low ≤ p.bottom)) ||
           (decide (db = "sell") && decide (c.high ≥ p.top))) := by
  cases hrev : l.reverse with
  | nil => rw [hrev] at h; simp at h
  | cons a rest =>
    rw [hrev] at h
    simp only [List.head?_cons, Option.some.injEq] at h
    subst h
    simp only [confirm_entry, hrev]
    split
    · rename_i h1
      simp [h1.1, h1.2]
    · rename_i h1
      split
      · rename_i h2
        simp [h2.1, h2.2]
      · rename_i h2
        push_neg at h1 h2
        by_cases hb : db = "buy"
        · simp [hb, h1 hb]
        · by_cases hs : db = "sell"
          · simp [hs, h2 hs]
          · simp [hb, hs]

/-- Witness for C6 as amended, at the concrete bar and POI of the
counterexample with bias "buy". -/
theorem confirm_entry_wick_only_witness :
    confirm_entry [barC6] poiC6 "buy" =
      .ok ((decide (("buy" : String) = "buy") && decide (barC6.low ≤ poiC6.bottom)) ||
           (decide (("buy" : String) = "sell") && decide (barC6.high ≥ poiC6.top))) :=
  confirm_entry_wick_only [barC6] barC6 poiC6 "buy" (by simp)

/-- C7 counterexample: the code confirms a bullish shift on `htfC7` because
the last bar's HIGH exceeds the previous bar's high, although the latest
CLOSE (99) exceeds no trailing window's highest high — the spec rule is
false for every window size 1, 2, 4, 5.  The code also takes no bias
argument at all. -/
theorem mss_ignores_close_and_window :
    detect_market_structure_shift htfC7 = some "bullish_bos" ∧
    shiftSpecRule (some "buy") htfC7 1 = false ∧
    shiftSpecRule (some "buy") htfC7 2 = false ∧
    shiftSpecRule (some "buy") htfC7 4 = false ∧
    shiftSpecRule (some "buy") htfC7 5 = false := by
  refine ⟨?_, ?_, ?_, ?_, ?_⟩ <;>
    norm_num [detect_market_structure_shift, shiftSpecRule, maxQ, htfC7]

/-- C7 as amended: `detect_market_structure_shift` takes no bias input; for
a series of at least three bars it reports "bullish_bos" exactly when the
last bar's high exceeds the previous bar's high, and "bearish_bos" exactly
when that fails and the last bar's low is below the previous bar's low.
The latest close and any wider trailing window play no role. -/
theorem mss_adjacent_bar_rule (htf : List Candle) (curr prev c3 : Candle)
    (rest : List Candle) (h : htf.reverse = curr :: prev :: c3 :: rest) :
    (detect_market_structure_shift htf = some "bullish_bos" ↔
      prev.high < curr.high) ∧
    (detect_market_structure_shift htf = some "bearish_bos" ↔
      (¬ prev.high < curr.high ∧ curr.low < prev.low)) := by
  simp only [detect_market_structure_shift, h]
  constructor
  · constructor
    · intro heq
      by_contra hlt
      rw [if_neg (by exact hlt)] at heq
      split at heq <;> simp at heq
    · intro hlt
      rw [if_pos hlt]
  · constructor
    · intro heq
      by_cases hhi : prev.high < curr.high
      · rw [if_pos hhi] at heq
        simp at heq
      · rw [if_neg hhi] at heq
        split at heq
        · exact ⟨hhi, by assumption⟩
        · simp at heq
    · intro ⟨hhi, hlo⟩
      rw [if_neg hhi, if_pos hlo]

/-- Witness for C7 as amended, at the concrete three-bar series of the
counterexample. -/
theorem mss_adjacent_bar_rule_witness :
    detect_market_structure_shift htfC7 = some "bullish_bos" := by
  have h := mss_adjacent_bar_rule htfC7 ⟨97, 101, 91, 99⟩ ⟨95, 100, 90, 96⟩
    ⟨90, 95, 85, 92⟩ [] (by simp [htfC7])
  exact h.1.mpr (by norm_num)

lemma biasA : identify_directional_bias htfA = .ok (some "buy") := by
  norm_num [identify_directional_bias, htfA]

lemma mssA : detect_market_structure_shift htfA = some "bullish_bos" := by
  norm_num [detect_market_structure_shift, htfA]

lemma obA : (detect_poi_and_liquidity htfA).1 = [⟨100, 99, "OB"⟩] := by
  norm_num [detect_poi_and_liquidity, htfA]

lemma confA : confirm_entry ltfA ⟨100, 99, "OB"⟩ "buy" = .ok true := by
  norm_num [confirm_entry, ltfA]

lemma tpsA : calculate_tps "buy" (199/2) 20 [3, 6, 10] = [319/2, 439/2, 599/2] := by
  have e1 : pyRound ((199/2 : ℚ) + 20 * 3) 5 = 319/2 := by
    rw [pyRound_eval_int 15950000 (by norm_num)]
    norm_num
  have e2 : pyRound ((199/2 : ℚ) + 20 * 6) 5 = 439/2 := by
    rw [pyRound_eval_int 21950000 (by norm_num)]
    norm_num
  have e3 : pyRound ((199/2 : ℚ) + 20 * 10) 5 = 599/2 := by
    rw [pyRound_eval_int 29950000 (by norm_num)]
    norm_num
  simp [calculate_tps, pyLower_buy, e1, e2, e3]

lemma mkA : mkTradeSetup "EUR/USD" "buy" (199/2) 99 [3, 6, 10] 100 "phase1" 20 =
    .ok setupA := by
  simp [mkTradeSetup, lot_phase1_eurusd_20, tpsA, setupA]

lemma tradeA_eval :
    generate_trade "EUR/USD" htfA ltfA "phase1" 20 = .ok (some setupA) := by
  simp only [generate_trade, biasA, mssA, obA, confA, List.getLast?_singleton,
    confidence_score, Option.isSome]
  norm_num [mkA]

lemma lot_phase1_eurusd_neg1 :
    calculate_lot_size "phase1" "EUR/USD" (-1) = .ok (-10) := by
  simp [calculate_lot_size, account_risk_percent, get_account_balance,
    pip_value_eurusd, lotRaw]
  rw [pyRound_eval_int (-10000) (by norm_num)]
  norm_num

lemma tps2c :
    calculate_tps "buy" (199/2) (-1) [3, 6, 10] = [193/2, 187/2, 179/2] := by
  have e1 : pyRound ((199/2 : ℚ) + -3) 5 = 193/2 := by
    rw [pyRound_eval_int 9650000 (by norm_num)]
    norm_num
  have e2 : pyRound ((199/2 : ℚ) + -6) 5 = 187/2 := by
    rw [pyRound_eval_int 9350000 (by norm_num)]
    norm_num
  have e3 : pyRound ((199/2 : ℚ) + -10) 5 = 179/2 := by
    rw [pyRound_eval_int 8950000 (by norm_num)]
    norm_num
  simp [calculate_tps, pyLower_buy, e1, e2, e3]

lemma mk2c :
    mkTradeSetup "EUR/USD" "buy" (199/2) 99 [3, 6, 10] 100 "phase1" (-1) =
      .ok setup2c := by
  simp [mkTradeSetup, lot_phase1_eurusd_neg1, tps2c, setup2c]

lemma trade2c_eval :
    generate_trade "EUR/USD" htfA ltfA "phase1" (-1) = .ok (some setup2c) := by
  simp only [generate_trade, biasA, mssA, obA, confA, List.getLast?_singleton,
    confidence_score, Option.isSome]
  norm_num [mk2c]

/-- C2 counterexample: nothing rejects a violating assembly.  On Scenario A
inputs with `sl_pips = -1`, `generate_trade` assembles a "buy" trade whose
targets decrease below its entry, violating the claimed ordering
invariant. -/
theorem trade_ordering_violation_assembled :
    generate_trade "EUR/USD" htfA ltfA "phase1" (-1) = .ok (some setup2c) ∧
    orderingOKb setup2c = false := by
  refine ⟨trade2c_eval, ?_⟩
  norm_num [orderingOKb, setup2c, chainUpb]

/-- C5 counterexample: on Scenario A (bullish bias, structure shift, one
OrderBlock POI [99, 100], confirmation true, standard tier), the produced
trade's entry is NOT the last lower-timeframe close (100.2 = 501/5) and its
stop is NOT strictly below 99: the code uses the POI midpoint as entry and
the POI's lower bound itself as stop. -/
theorem scenarioA_entry_not_last_close :
    (ltfA.reverse.head?.map Candle.close) = some (501/5) ∧
    generate_trade "EUR/USD" htfA ltfA "phase1" 20 = .ok (some setupA) ∧
    setupA.entry ≠ 501/5 ∧ ¬ setupA.sl < 99 := by
  refine ⟨by norm_num [ltfA], tradeA_eval, by norm_num [setupA], by norm_num [setupA]⟩

/-- C5 as amended: Scenario A produces a "buy" (Long) trade whose entry is
the midpoint of the POI band, (99 + 100)/2, and whose stop sits exactly at
the POI's lower boundary 99 (not strictly beyond it), passing the standard
85 threshold with confidence 100. -/
theorem scenarioA_entry_midpoint_stop_at_poi :
    generate_trade "EUR/USD" htfA ltfA "phase1" 20 = .ok (some setupA) ∧
    setupA.direction = "buy" ∧ setupA.entry = (99 + 100) / 2 ∧
    setupA.sl = 99 ∧ 85 ≤ setupA.confidence := by
  refine ⟨tradeA_eval, rfl, by norm_num [setupA], rfl, by norm_num [setupA]⟩

/-! ## Dissecting a successful `generate_trade` run -/

lemma identify_bias_values (htf : List Candle) (db : String)
    (h : identify_directional_bias htf = .ok (some db)) :
    db = "buy" ∨ db = "sell" := by
  unfold identify_directional_bias at h
  split at h
  · split at h
    · left
      simp only [Except.ok.injEq, Option.some.injEq] at h
      exact h.symm
    · split at h
      · right
        simp only [Except.ok.injEq, Option.some.injEq] at h
        exact h.symm
      · simp at h
  · simp at h

lemma calculate_tps_buy (e s : ℚ) :
    calculate_tps "buy" e s [3, 6, 10] =
      [pyRound (e + s * 3) 5, pyRound (e + s * 6) 5, pyRound (e + s * 10) 5] := by
  simp [calculate_tps, pyLower_buy]

lemma calculate_tps_sell (e s : ℚ) :
    calculate_tps "sell" e s [3, 6, 10] =
      [pyRound (e - s * 3) 5, pyRound (e - s * 6) 5, pyRound (e - s * 10) 5] := by
  simp [calculate_tps, pyLower_sell]

/-- Everything that is true of a `TradeSetup` that `generate_trade`
actually returns: the field values it was assembled from, and the gate
conditions that let it through. -/
lemma generate_trade_ok_fields (sym : String) (htf ltf : List Candle)
    (acct : String) (slp : ℚ) (t : TradeSetup)
    (h : generate_trade sym htf ltf acct slp = .ok (some t)) :
    ∃ db poi confirm,
      identify_directional_bias htf = .ok (some db) ∧
      ((detect_poi_and_liquidity htf).1).getLast? = some poi ∧
      confirm_entry ltf poi db = .ok confirm ∧
      t.direction = db ∧
      t.entry = (poi.top + poi.bottom) / 2 ∧
      t.sl = (if db = "buy" then poi.bottom else poi.top) ∧
      t.tp_levels = calculate_tps db ((poi.top + poi.bottom) / 2) slp [3, 6, 10] ∧
      t.confidence =
        confidence_score (detect_market_structure_shift htf).isSome true confirm ∧
      ¬(t.confidence < 85 ∧ acct ≠ "personal_10") ∧
      ¬(t.confidence < 95 ∧ acct = "personal_10") := by
  simp only [generate_trade] at h
  split at h
  · simp at h
  · simp at h
  · rename_i db hdb
    split at h
    · simp at h
    · rename_i poi hpoi
      split at h
      · simp at h
      · rename_i confirm hconf
        split at h
        · simp at h
        · rename_i h85
          split at h
          · simp at h
          · rename_i h95
            split at h
            · simp at h
            · rename_i t' hmk
              simp only [Except.ok.injEq, Option.some.injEq] at h
              subst h
              unfold mkTradeSetup at hmk
              split at hmk
              · simp at hmk
              · rename_i lot hlot
                simp only [Except.ok.injEq] at hmk
                subst hmk
                exact ⟨db, poi, confirm, hdb, hpoi, hconf, rfl, rfl, rfl, rfl,
                  rfl, h85, h95⟩

/-- Any returned trade passed both tier gates, so its confidence clears the
tier's threshold. -/
lemma confidence_meets_threshold {t : TradeSetup} {acct : String}
    (h85 : ¬(t.confidence < 85 ∧ acct ≠ "personal_10"))
    (h95 : ¬(t.confidence < 95 ∧ acct = "personal_10")) :
    85 ≤ t.confidence := by
  by_cases hacct : acct = "personal_10"
  · have h : ¬ t.confidence < 95 := fun hlt => h95 ⟨hlt, hacct⟩
    omega
  · have h : ¬ t.confidence < 85 := fun hlt => h85 ⟨hlt, hacct⟩
    omega

/-- A confirmation of `false` caps the score at 70, below every tier
threshold; a trade that cleared a gate therefore had `confirm = true`. -/
lemma confirm_true_of_score {b confirm : Bool}
    (h : 85 ≤ confidence_score b true confirm) : confirm = true := by
  cases confirm
  · cases b <;> simp [confidence_score] at h
  · rfl

/-- C1: a `TradeSetup` is returned by `generate_trade` only when the
detected bias is non-Neutral ("buy" or "sell"), an OrderBlock POI was
located, the confirmation check returned true, and the confidence clears
the tier threshold: 95 for account "personal_10" and 85 for every other
account type. -/
theorem generate_trade_gate_conditions (sym : String) (htf ltf : List Candle)
    (acct : String) (slp : ℚ) (t : TradeSetup)
    (h : generate_trade sym htf ltf acct slp = .ok (some t)) :
    ∃ db poi, identify_directional_bias htf = .ok (some db) ∧
      ((detect_poi_and_liquidity htf).1).getLast? = some poi ∧
      confirm_entry ltf poi db = .ok true ∧
      (if acct = "personal_10" then 95 ≤ t.confidence else 85 ≤ t.confidence) := by
  obtain ⟨db, poi, confirm, hdb, hpoi, hconf, _, _, _, _, hscore, h85, h95⟩ :=
    generate_trade_ok_fields sym htf ltf acct slp t h
  have hthr : 85 ≤ t.confidence := confidence_meets_threshold h85 h95
  have hc : confirm = true := by
    refine confirm_true_of_score (b := (detect_market_structure_shift htf).isSome) ?_
    rw [← hscore]
    exact hthr
  subst hc
  refine ⟨db, poi, hdb, hpoi, hconf, ?_⟩
  split
  · rename_i hacct
    have h : ¬ t.confidence < 95 := fun hlt => h95 ⟨hlt, hacct⟩
    omega
  · rename_i hacct
    have h : ¬ t.confidence < 85 := fun hlt => h85 ⟨hlt, hacct⟩
    omega

/-- Witness for C1 at the Scenario A inputs with account "phase1". -/
theorem generate_trade_gate_conditions_witness :
    ∃ db poi, identify_directional_bias htfA = .ok (some db) ∧
      ((detect_poi_and_liquidity htfA).1).getLast? = some poi ∧
      confirm_entry ltfA poi db = .ok true ∧
      (if "phase1" = "personal_10" then 95 ≤ setupA.confidence
       else 85 ≤ setupA.confidence) :=
  generate_trade_gate_conditions "EUR/USD" htfA ltfA "phase1" 20 setupA tradeA_eval

/-- C10: under the fixed weights (40 structure shift, 30 POI, 30
confirmation) the best score with any contribution missing is 70, below
both tier thresholds; so every trade `generate_trade` returns carries
confidence exactly 100, with structure shift, POI and confirmation all
simultaneously present. -/
theorem confidence_always_100 (sym : String) (htf ltf : List Candle)
    (acct : String) (slp : ℚ) (t : TradeSetup)
    (h : generate_trade sym htf ltf acct slp = .ok (some t)) :
    t.confidence = 100 ∧
    (detect_market_structure_shift htf).isSome = true ∧
    (∃ db poi, identify_directional_bias htf = .ok (some db) ∧
      ((detect_poi_and_liquidity htf).1).getLast? = some poi ∧
      confirm_entry ltf poi db = .ok true) := by
  obtain ⟨db, poi, confirm, hdb, hpoi, hconf, _, _, _, _, hscore, h85, h95⟩ :=
    generate_trade_ok_fields sym htf ltf acct slp t h
  have hthr : 85 ≤ t.confidence := confidence_meets_threshold h85 h95
  rw [hscore] at hthr ⊢
  cases hb : (detect_market_structure_shift htf).isSome <;> cases hc : confirm
  · simp [confidence_score, hb, hc] at hthr
  · simp [confidence_score, hb, hc] at hthr
  · simp [confidence_score, hb, hc] at hthr
  · subst hc
    exact ⟨by simp [confidence_score], rfl, db, poi, hdb, hpoi, hconf⟩

/-- C2 as amended: the ordering invariant (stop < entry < targets strictly
increasing for "buy", mirrored for "sell") does hold for every trade
`generate_trade` assembles, PROVIDED the POI band is non-degenerate
(prev bar's low < high) and `sl_pips` is at least one 5-decimal rounding
step (10⁻⁵); the code itself performs no rejection, so inputs outside
these conditions can still assemble violating trades. -/
theorem trade_ordering_holds_for_positive_sl (sym : String)
    (htf ltf : List Candle) (acct : String) (slp : ℚ) (t : TradeSetup)
    (curr prev : Candle) (rest : List Candle)
    (hrev : htf.reverse = curr :: prev :: rest)
    (hband : prev.low < prev.high) (hslp : 1/100000 ≤ slp)
    (h : generate_trade sym htf ltf acct slp = .ok (some t)) :
    orderingOKb t = true := by
  obtain ⟨db, poi, confirm, hdb, hpoi, hconf, hdir, hentry, hsl, htps, _, _, _⟩ :=
    generate_trade_ok_fields sym htf ltf acct slp t h
  have hpoi_eq : poi = ⟨prev.high, prev.low, "OB"⟩ := by
    cases rest with
    | nil => simp [detect_poi_and_liquidity, hrev] at hpoi
    | cons c3 rest' =>
      simp [detect_poi_and_liquidity, hrev] at hpoi
      exact hpoi.symm
  rw [hpoi_eq] at hentry hsl htps
  simp only at hentry hsl htps
  rcases identify_bias_values htf db hdb with hbuy | hsell
  · subst hbuy
    rw [if_pos rfl] at hsl
    rw [orderingOKb, if_pos (by rw [hdir]), hsl, hentry, htps, calculate_tps_buy]
    simp only [chainUpb, Bool.and_eq_true, decide_eq_true_eq]
    have g0 : prev.low < (prev.high + prev.low) / 2 := by linarith
    have g1 : (prev.high + prev.low) / 2 <
        pyRound ((prev.high + prev.low) / 2 + slp * 3) 5 := by
      have := pyRound5_ge ((prev.high + prev.low) / 2 + slp * 3)
      linarith
    have g2 : pyRound ((prev.high + prev.low) / 2 + slp * 3) 5 <
        pyRound ((prev.high + prev.low) / 2 + slp * 6) 5 :=
      pyRound5_strict (by linarith)
    have g3 : pyRound ((prev.high + prev.low) / 2 + slp * 6) 5 <
        pyRound ((prev.high + prev.low) / 2 + slp * 10) 5 :=
      pyRound5_strict (by linarith)
    exact ⟨g0, g1, g2, g3, trivial⟩
  · subst hsell
    rw [if_neg (by simp)] at hsl
    rw [orderingOKb, if_neg (by simp [hdir]), hsl, hentry, htps,
      calculate_tps_sell]
    simp only [chainDownb, Bool.and_eq_true, decide_eq_true_eq]
    have g0 : (prev.high + prev.low) / 2 < prev.high := by linarith
    have g1 : pyRound ((prev.high + prev.low) / 2 - slp * 3) 5 <
        (prev.high + prev.low) / 2 := by
      have := pyRound5_le ((prev.high + prev.low) / 2 - slp * 3)
      linarith
    have g2 : pyRound ((prev.high + prev.low) / 2 - slp * 6) 5 <
        pyRound ((prev.high + prev.low) / 2 - slp * 3) 5 :=
      pyRound5_strict (by linarith)
    have g3 : pyRound ((prev.high + prev.low) / 2 - slp * 10) 5 <
        pyRound ((prev.high + prev.low) / 2 - slp * 6) 5 :=
      pyRound5_strict (by linarith)
    exact ⟨g0, g1, g2, g3, trivial⟩

/-- Witness for C2 as amended: the Scenario A trade (positive
`sl_pips = 20`, POI band [99, 100]) satisfies the ordering invariant. -/
theorem trade_ordering_holds_for_positive_sl_witness :
    orderingOKb setupA = true :=
  trade_ordering_holds_for_positive_sl "EUR/USD" htfA ltfA "phase1" 20 setupA
    ⟨99.9, 101, 99.5, 100.4⟩ ⟨99.2, 100, 99, 99.8⟩ [⟨92, 98, 88, 90⟩]
    (by simp [htfA]) (by norm_num) (by norm_num) tradeA_eval

/-- C8 counterexample: with risk 2 %, pip value 10 and stop distance 20,
doubling the balance from 13 to 26 turns the rounded lot 0.001 into 0.003
(not 0.002), and doubling the stop distance instead yields 0.001 (not
0.0015): the final 3-decimal rounding breaks the exact doubling/halving
relations. -/
theorem lot_scaling_fails_after_rounding :
    pyRound (lotRaw 26 2 20 10) 3 ≠ 2 * pyRound (lotRaw 13 2 20 10) 3 ∧
    pyRound (lotRaw 26 2 40 10) 3 ≠ pyRound (lotRaw 26 2 20 10) 3 / 2 := by
  have h13 : pyRound (lotRaw 13 2 20 10) 3 = 1/1000 := by
    rw [show lotRaw 13 2 20 10 = 13/10000 by norm_num [lotRaw]]
    rw [pyRound_eval_lo 1 (by norm_num) (by norm_num)]
    norm_num
  have h26 : pyRound (lotRaw 26 2 20 10) 3 = 3/1000 := by
    rw [show lotRaw 26 2 20 10 = 13/5000 by norm_num [lotRaw]]
    rw [pyRound_eval_hi 2 (by norm_num) (by norm_num)]
    norm_num
  have h26s : pyRound (lotRaw 26 2 40 10) 3 = 1/1000 := by
    rw [show lotRaw 26 2 40 10 = 13/10000 by norm_num [lotRaw]]
    rw [pyRound_eval_lo 1 (by norm_num) (by norm_num)]
    norm_num
  rw [h13, h26, h26s]
  norm_num

/-- C8 as amended: the sizer computes `pyRound (lotRaw ...) 3`, and the
pre-rounding size `lotRaw` is exactly homogeneous — doubling the balance
doubles it and doubling the stop distance halves it; only the final
3-decimal rounding of the reported lot breaks the exact relation. -/
theorem lot_scaling_exact_before_rounding (acct sym : String) (pct s b : ℚ)
    (hp : account_risk_percent acct = some pct)
    (hs : s * pip_value_usd sym ≠ 0) :
    calculate_lot_size acct sym s =
      .ok (pyRound (lotRaw (get_account_balance acct) pct s (pip_value_usd sym)) 3) ∧
    lotRaw (2 * b) pct s (pip_value_usd sym) =
      2 * lotRaw b pct s (pip_value_usd sym) ∧
    lotRaw b pct (2 * s) (pip_value_usd sym) =
      lotRaw b pct s (pip_value_usd sym) / 2 := by
  refine ⟨?_, ?_, ?_⟩
  · simp [calculate_lot_size, hp, hs]
  · rw [lotRaw, lotRaw, show pct / 100 * (2 * b) = 2 * (pct / 100 * b) by ring,
      mul_div_assoc]
  · rw [lotRaw, lotRaw,
      show 2 * s * pip_value_usd sym = s * pip_value_usd sym * 2 by ring,
      ← div_div]

/-- Witness for C8 as amended: account "phase1" (risk 2 %), symbol
"EUR/USD" (pip value 10), stop distance 20, balance 7. -/
theorem lot_scaling_exact_before_rounding_witness :
    calculate_lot_size "phase1" "EUR/USD" 20 =
      .ok (pyRound (lotRaw (get_account_balance "phase1") 2 20
        (pip_value_usd "EUR/USD")) 3) ∧
    lotRaw (2 * 7) 2 20 (pip_value_usd "EUR/USD") =
      2 * lotRaw 7 2 20 (pip_value_usd "EUR/USD") ∧
    lotRaw 7 2 (2 * 20) (pip_value_usd "EUR/USD") =
      lotRaw 7 2 20 (pip_value_usd "EUR/USD") / 2 :=
  lot_scaling_exact_before_rounding "phase1" "EUR/USD" 2 20 7
    (by simp [account_risk_percent]) (by rw [pip_value_eurusd]; norm_num)

/-- Witness for C10 at the Scenario A inputs. -/
theorem confidence_always_100_witness :
    setupA.confidence = 100 ∧
    (detect_market_structure_shift htfA).isSome = true ∧
    (∃ db poi, identify_directional_bias htfA = .ok (some db) ∧
      ((detect_poi_and_liquidity htfA).1).getLast? = some poi ∧
      confirm_entry ltfA poi db = .ok true) :=
  confidence_always_100 "EUR/USD" htfA ltfA "phase1" 20 setupA tradeA_eval
